import Mathlib

/-!
Shallow embedding of the LANShare repository (Go) and verification of its
specification claims.

Source files embedded:
* `model/bluetooth.go` — a time-bounded BLE proximity scan (`scanImpl`,
  its discovery callback `advHandler`, and the `Device` record).
* `model/webDav.go` — lifecycle of a local WebDAV server
  (`NewWebDAVService`, `Start`, `Stop`, `IsRunning`, `Root`) and the
  LAN-address resolver `localIPv4`.

External effects (the BLE stack, the OS network layer, the filesystem) are
modelled as explicit environment records passed to the embedded functions;
the Go logic itself is translated statement by statement.
-/

namespace LANShare

/-! ## Bluetooth scan (model/bluetooth.go) -/

/-- Device mirrors the Go struct `Device{Addr, Name, RSSI}` (bluetooth.go:15-19). -/
structure Device where
  addr : String
  name : String
  rssi : Int
deriving DecidableEq, Repr

/-- Advertisement models the `ble.Advertisement` values delivered to the scan
callback: the fields `advHandler` reads are `Addr().String()`, `LocalName()`
and `RSSI()`. -/
structure Advertisement where
  addr : String
  localName : String
  rssi : Int
deriving DecidableEq, Repr

/-- Errors crossing the Go error interface, distinguishing the two context
errors `scanImpl` treats as normal completion (bluetooth.go:66). -/
inductive GoErr where
  | deadlineExceeded
  | canceled
  | other (msg : String)
deriving DecidableEq, Repr

/-- Go map update `devices[addr] = dvc` on an association-list model of the
`map[string]Device`: replace the binding when the key is present, append it
otherwise. -/
def upsert (m : List (String × Device)) (k : String) (v : Device) :
    List (String × Device) :=
  match m with
  | [] => [(k, v)]
  | (k', v') :: rest =>
      if k' = k then (k, v) :: rest else (k', v') :: upsert rest k v

/-- The discovery callback (bluetooth.go:45-57): events whose `LocalName()` is
empty are dropped; otherwise `devices[addr] = Device{addr, name, rssi}`. -/
def advHandler (devices : List (String × Device)) (a : Advertisement) :
    List (String × Device) :=
  if a.localName = "" then devices
  else upsert devices a.addr ⟨a.addr, a.localName, a.rssi⟩

/-- State of the `devices` map after the scan delivered `events` in order
(events for one address are applied in delivery order, bluetooth.go:45-57). -/
def collectDevices (events : List Advertisement) : List (String × Device) :=
  events.foldl advHandler []

/-- Draining the map into the result slice (bluetooth.go:79-82). -/
def drain (m : List (String × Device)) : List Device :=
  m.map Prod.snd

/-- The `seconds <= 0` normalization at bluetooth.go:25-28. -/
def normalizeSeconds (seconds : Int) : Int :=
  if seconds ≤ 0 then 5 else seconds

/-- Environment of one scan: the outcome of `dev.NewDevice` (bluetooth.go:31),
the advertisements delivered while scanning, and the error value returned by
`ble.Scan` (`none` models a nil error). -/
structure ScanEnv where
  newDeviceResult : Option GoErr
  events : List Advertisement
  scanResult : Option GoErr
deriving DecidableEq, Repr

/-- Embedding of `scanImpl` (bluetooth.go:24-85). The environment is a
function of the normalized duration, since the deadline handed to the BLE
stack is derived from it (bluetooth.go:39). An error from `ble.Scan` that is
`context.DeadlineExceeded` or `context.Canceled` is treated as normal
completion and the collected devices are drained; any other error is
returned with a nil slice (bluetooth.go:60-72). -/
def scanImpl (seconds : Int) (env : Int → ScanEnv) : Except GoErr (List Device) :=
  let s := normalizeSeconds seconds
  let e := env s
  match e.newDeviceResult with
  | some err => .error err
  | none =>
      let devices := collectDevices e.events
      match e.scanResult with
      | some err =>
          if err = .deadlineExceeded ∨ err = .canceled then .ok (drain devices)
          else .error err
      | none => .ok (drain devices)

/-- Scan on the service just forwards to `scanImpl` (bluetooth.go:89-91). -/
def BluetoothService.Scan (seconds : Int) (env : Int → ScanEnv) :
    Except GoErr (List Device) :=
  scanImpl seconds env

/-! ## LAN address resolution (model/webDav.go, `localIPv4`) -/

/-- IPv4 value produced by a successful `ip.To4()`, held as four octets. -/
structure IPv4 where
  a : Nat
  b : Nat
  c : Nat
  d : Nat
deriving DecidableEq, Repr

/-- Go's `ip.String()` rendering for an IPv4 value. -/
def ipv4String (p : IPv4) : String :=
  toString p.a ++ "." ++ toString p.b ++ "." ++ toString p.c ++ "." ++ toString p.d

/-- Model of a `net.IP` as `localIPv4` inspects it: whether `IsLoopback()`
holds, and the result of `To4()` (`none` when the address is not expressible
as IPv4, webDav.go:160-163). -/
structure IP where
  loopback : Bool
  v4 : Option IPv4
deriving DecidableEq, Repr

/-- Model of one `net.Interface`: its Up and Loopback flags and the outcome
of `Addrs()` (`none` models the error branch at webDav.go:145-148). Each
listed address is `none` when the `net.Addr` is neither `*net.IPNet` nor
`*net.IPAddr`, so the extracted `ip` stays nil (webDav.go:150-156). -/
structure Iface where
  up : Bool
  loopback : Bool
  addrsResult : Option (List (Option IP))
deriving DecidableEq, Repr

/-- Inner loop of `localIPv4` over one interface's addresses
(webDav.go:149-166): skip a nil ip, skip loopback addresses, skip addresses
whose `To4()` is nil, and return the first surviving IPv4. -/
def firstIPv4InAddrs : List (Option IP) → Option IPv4
  | [] => none
  | none :: rest => firstIPv4InAddrs rest
  | some ip :: rest =>
      if ip.loopback then firstIPv4InAddrs rest
      else
        match ip.v4 with
        | none => firstIPv4InAddrs rest
        | some p => some p

/-- Outer loop of `localIPv4` over the interfaces (webDav.go:140-167): an
interface is skipped unless its flags satisfy
`iface.Flags&(net.FlagUp|net.FlagLoopback) == net.FlagUp`, i.e. it is up and
not loopback; an `Addrs()` error skips the interface; otherwise the first
qualifying IPv4 in its address list is returned, and the search moves on to
the next interface when there is none. -/
def localIPv4Go : List Iface → String
  | [] => ""
  | iface :: rest =>
      if iface.up && !iface.loopback then
        match iface.addrsResult with
        | none => localIPv4Go rest
        | some addrs =>
            match firstIPv4InAddrs addrs with
            | none => localIPv4Go rest
            | some p => ipv4String p
      else localIPv4Go rest

/-- Embedding of `localIPv4` (webDav.go:135-169): `net.Interfaces()` failure
(`none`) yields the empty sentinel; otherwise the interface list is scanned. -/
def localIPv4 (ifacesResult : Option (List Iface)) : String :=
  match ifacesResult with
  | none => ""
  | some ifaces => localIPv4Go ifaces

/-! ## WebDAV server lifecycle (model/webDav.go) -/

/-- Bound TCP listener handle; `boundPort` is what
`ln.Addr().(*net.TCPAddr).Port` reads back (webDav.go:95). -/
structure Listener where
  boundPort : Nat
deriving DecidableEq, Repr

/-- Mutable fields of `WebDAVService` (webDav.go:19-25). The `http.Server`
handle carries no data our claims read, so it is modelled by presence alone;
the mutex serializes the operations and needs no explicit model in this
sequential embedding. -/
structure WebDAVState where
  srv : Option Unit
  listener : Option Listener
  root : String
  running : Bool
deriving DecidableEq, Repr

/-- Environment of `NewWebDAVService`: the outcome of `os.Getwd()` (`none`
models the error branch, webDav.go:31-33) and of `os.MkdirAll` (`some` an
error message when creation fails, webDav.go:37-39). -/
structure NewEnv where
  getwd : Option String
  mkdirResult : Option String
deriving DecidableEq, Repr

/-- One step of Go's `filepath.Clean` over the slash-separated elements of a
path, processed against a stack (head = innermost element): empty and `"."`
elements vanish, `".."` pops a poppable element — outside a rooted path it
accumulates, at the root it vanishes — and anything else is pushed. -/
def cleanStep (rooted : Bool) (stack : List String) (elem : String) :
    List String :=
  if elem = "" ∨ elem = "." then stack
  else if elem = ".." then
    match stack with
    | top :: rest => if top = ".." then ".." :: stack else rest
    | [] => if rooted then [] else [".."]
  else elem :: stack

/-- Splitting a path's characters at the separator into its elements, the
current element accumulated in reverse (so "a/b" gives ["a", "b"] and a
leading, trailing or doubled slash contributes an empty element, exactly as
Go's per-byte scan sees the path). -/
def splitSlashAux : List Char → List Char → List String
  | [], acc => [String.mk acc.reverse]
  | c :: rest, acc =>
      if c = '/' then String.mk acc.reverse :: splitSlashAux rest []
      else splitSlashAux rest (c :: acc)

/-- Whether a path is rooted, i.e. begins with the separator. -/
def isRooted (p : String) : Bool :=
  match p.data with
  | [] => false
  | c :: _ => c = '/'

/-- Joining cleaned elements back with the separator. -/
def joinSlash : List String → String
  | [] => ""
  | [s] => s
  | s :: rest => s ++ "/" ++ joinSlash rest

/-- Go's `filepath.Clean` for the slash-separated paths of the Unix build:
the empty path cleans to `"."`; otherwise the elements are folded through
`cleanStep` and rejoined, with `"/"` (when rooted) or `"."` standing in for
an empty result. -/
def filepathClean (p : String) : String :=
  if p = "" then "."
  else
    let rooted := isRooted p
    let elems := (splitSlashAux p.data []).foldl (cleanStep rooted) []
    let body := joinSlash elems.reverse
    if rooted then
      if body = "" then "/" else "/" ++ body
    else
      if body = "" then "." else body

/-- Go's `filepath.Join` on two elements (Unix build): empty elements are
ignored, the remaining ones are joined with a slash, and the result is
Cleaned; all-empty input returns the empty string uncleaned. -/
def filepathJoin (dir elem : String) : String :=
  if dir = "" then
    if elem = "" then "" else filepathClean elem
  else if elem = "" then filepathClean dir
  else filepathClean (dir ++ "/" ++ elem)

/-- Embedding of `NewWebDAVService` (webDav.go:28-42): an empty root is
replaced by `<workingDirectory>/shared` (with `"."` standing in when
`os.Getwd` fails); a `MkdirAll` failure is only logged; the returned service
has no handles and is not running. -/
def NewWebDAVService (root : String) (env : NewEnv) : WebDAVState :=
  let root :=
    if root = "" then
      let cwd :=
        match env.getwd with
        | some c => c
        | none => "."
      filepathJoin cwd "shared"
    else root
  { srv := none, listener := none, root := root, running := false }

/-- Environment of one `Start` call: the outcome of
`net.Listen("tcp", "0.0.0.0:port")` as a function of the requested port
(webDav.go:71-72) and the interface enumeration consumed by `localIPv4`
(webDav.go:91). -/
structure StartEnv where
  listenResult : Nat → Except GoErr Listener
  ifacesResult : Option (List Iface)

/-- Embedding of `Start` (webDav.go:46-98). Under the lock: reject when
already running; bind the listener, failing with the bind error and no state
change; record both handles and set `running`; resolve the host via
`localIPv4` with a `127.0.0.1` fallback; return `"<host>:<actualPort>"` with
the port read back from the listener. The background `srv.Serve` goroutine
is not part of the completed call. -/
def Start (w : WebDAVState) (env : StartEnv) (port : Nat) :
    Except GoErr String × WebDAVState :=
  if w.running then (.error (.other "webdav already running"), w)
  else
    match env.listenResult port with
    | .error e => (.error e, w)
    | .ok ln =>
        let w' : WebDAVState :=
          { w with srv := some (), listener := some ln, running := true }
        let resolved := localIPv4 env.ifacesResult
        let host := if resolved = "" then "127.0.0.1" else resolved
        (.ok (host ++ ":" ++ toString ln.boundPort), w')

/-- Environment of one `Stop` call: the error value returned by
`srv.Shutdown` under its 5-second context (`none` models a nil error,
webDav.go:112-116). -/
structure StopEnv where
  shutdownResult : Option GoErr
deriving DecidableEq, Repr

/-- Embedding of `Stop` (webDav.go:101-120). Under the lock: a no-op when
not running; otherwise the listener is closed (its error discarded, the
handle kept), `srv.Shutdown` is attempted when the handle is non-nil, and a
shutdown error is returned immediately — the `w.running = false` write at
webDav.go:118 is reached only after a clean shutdown. -/
def Stop (w : WebDAVState) (env : StopEnv) : Option GoErr × WebDAVState :=
  if !w.running then (none, w)
  else
    match w.srv with
    | some _ =>
        match env.shutdownResult with
        | some e => (some e, w)
        | none => (none, { w with running := false })
    | none => (none, { w with running := false })

/-- Embedding of `IsRunning` (webDav.go:123-127). -/
def IsRunning (w : WebDAVState) : Bool :=
  w.running

/-- Embedding of `Root` (webDav.go:130-132). -/
def Root (w : WebDAVState) : String :=
  w.root

/-- States reachable from a freshly constructed service by completed `Start`
and `Stop` calls, with arbitrary environments and ports. -/
inductive Reachable (w0 : WebDAVState) : WebDAVState → Prop
  | init : Reachable w0 w0
  | start (w : WebDAVState) (env : StartEnv) (port : Nat) :
      Reachable w0 w → Reachable w0 (Start w env port).2
  | stop (w : WebDAVState) (env : StopEnv) :
      Reachable w0 w → Reachable w0 (Stop w env).2

/-- Qualifying addresses of one interface, in order: those that are neither
nil nor loopback and are expressible as IPv4 (the survivors of the inner
loop at webDav.go:149-166). -/
def qualifying : List (Option IP) → List IPv4
  | [] => []
  | none :: rest => qualifying rest
  | some ip :: rest =>
      if ip.loopback then qualifying rest
      else
        match ip.v4 with
        | none => qualifying rest
        | some p => p :: qualifying rest

/-- All qualifying IPv4 addresses across the up, non-loopback interfaces, in
enumeration order; an `Addrs()` error contributes nothing. -/
def candidateAddrs (ifaces : List Iface) : List IPv4 :=
  (ifaces.filter fun i => i.up && !i.loopback).flatMap
    fun i => qualifying (i.addrsResult.getD [])

/-- Modelled from the claim's words (C8): after skipping interfaces that are
administratively down or loopback, the result is determined by the first
remaining interface with at least one assigned address — its first
non-loopback IPv4 address — and is the empty sentinel otherwise. -/
def localIPv4PerClaim (ifacesResult : Option (List Iface)) : String :=
  match ifacesResult with
  | none => ""
  | some ifaces =>
      match (ifaces.filter fun i => i.up && !i.loopback).find?
          (fun i => !(i.addrsResult.getD []).isEmpty) with
      | none => ""
      | some i =>
          match firstIPv4InAddrs (i.addrsResult.getD []) with
          | some p => ipv4String p
          | none => ""

/-- Sample lifecycle run used by the concrete theorems: construct with a
non-empty root, start once on port 8080, stop once cleanly. -/
def sampleService : WebDAVState :=
  NewWebDAVService "/srv" ⟨some "/home", none⟩

/-- Start environment of the sample run: the bind succeeds on port 8080 and
the interface enumeration fails, so the host falls back to 127.0.0.1. -/
def sampleStartEnv : StartEnv :=
  ⟨fun _ => .ok ⟨8080⟩, none⟩

/-- State of the sample service after its successful `Start`. -/
def sampleStarted : WebDAVState :=
  (Start sampleService sampleStartEnv 8080).2

/-- State of the sample service after a subsequent clean `Stop`. -/
def sampleStopped : WebDAVState :=
  (Stop sampleStarted ⟨none⟩).2

/-! ## Theorems -/

/-- C1: for a sequence of discovery events sharing one peer address, the
devices map at the end of the scan holds exactly the Device built from the
last event with a non-empty display name (its address, name and RSSI), and
it is empty when every event has an empty display name — so empty-name
events never contribute a Device. -/
theorem scan_last_nonempty_wins (events : List Advertisement) (addr : String)
    (hall : ∀ a ∈ events, a.addr = addr) :
    ((events.filter fun a => a.localName ≠ "").getLast? = none →
        collectDevices events = []) ∧
    (∀ e, (events.filter fun a => a.localName ≠ "").getLast? = some e →
        collectDevices events = [(addr, ⟨e.addr, e.localName, e.rssi⟩)]) := by
  induction events using List.reverseRecOn with
  | nil =>
      refine ⟨fun _ => rfl, fun e he => ?_⟩
      simp at he
  | append_singleton evs a ih =>
      have ha : a.addr = addr := hall a (by simp)
      have hall' : ∀ x ∈ evs, x.addr = addr := fun x hx => hall x (by simp [hx])
      have ih' := ih hall'
      by_cases h : a.localName = ""
      · have hfilter : ((evs ++ [a]).filter fun x => x.localName ≠ "")
            = evs.filter fun x => x.localName ≠ "" := by
          simp [List.filter_append, h]
        have hcoll : collectDevices (evs ++ [a]) = collectDevices evs := by
          simp [collectDevices, List.foldl_append, advHandler, h]
        rw [hfilter, hcoll]
        exact ih'
      · have hfilter : ((evs ++ [a]).filter fun x => x.localName ≠ "")
            = (evs.filter fun x => x.localName ≠ "") ++ [a] := by
          simp [List.filter_append, h]
        have hcoll : collectDevices (evs ++ [a])
            = advHandler (collectDevices evs) a := by
          simp [collectDevices, List.foldl_append]
        rw [hfilter, hcoll]
        constructor
        · intro hnone
          simp [List.getLast?_concat] at hnone
        · intro e he
          rw [List.getLast?_concat] at he
          injection he with he
          subst he
          rcases hlast : (evs.filter fun x => x.localName ≠ "").getLast? with _ | e'
          · rw [ih'.1 hlast]
            simp [advHandler, h, upsert, ha]
          · rw [ih'.2 e' hlast]
            simp [advHandler, h, upsert, ha]

/-- Witness for C1: three events at address A — names "x", "", "y" — leave
exactly the Device from the last non-empty-name event. -/
theorem scan_last_nonempty_wins_witness :
    collectDevices
        [⟨"A", "x", -40⟩, ⟨"A", "", -50⟩, ⟨"A", "y", -30⟩]
      = [("A", ⟨"A", "y", -30⟩)] :=
  (scan_last_nonempty_wins
      [⟨"A", "x", -40⟩, ⟨"A", "", -50⟩, ⟨"A", "y", -30⟩] "A"
      (by decide)).2 ⟨"A", "y", -30⟩ (by decide)

/-- C6: a scan invoked with non-positive seconds is not rejected and behaves
identically to a scan invoked with 5 seconds — the normalized duration
driving the deadline is 5. -/
theorem scan_nonpositive_seconds_default (seconds : Int) (env : Int → ScanEnv)
    (h : seconds ≤ 0) :
    normalizeSeconds seconds = 5 ∧ scanImpl seconds env = scanImpl 5 env := by
  have hnorm : normalizeSeconds seconds = 5 := by
    simp [normalizeSeconds, h]
  refine ⟨hnorm, ?_⟩
  simp only [scanImpl, hnorm]
  rfl

/-- Witness for C6 at seconds = -3 and a concrete environment. -/
theorem scan_nonpositive_seconds_default_witness :
    normalizeSeconds (-3) = 5 ∧
      scanImpl (-3) (fun _ => ⟨none, [⟨"A", "x", -40⟩], some .deadlineExceeded⟩)
        = scanImpl 5 (fun _ => ⟨none, [⟨"A", "x", -40⟩], some .deadlineExceeded⟩) :=
  scan_nonpositive_seconds_default (-3)
    (fun _ => ⟨none, [⟨"A", "x", -40⟩], some .deadlineExceeded⟩) (by decide)

/-- C4: once the BLE device was created, a scan whose discovery capability
ends with deadline-exceeded or cancellation returns success with exactly the
devices collected so far, never an error; a scan that ends with any other
error fails with that error and carries no device list. -/
theorem scan_termination (seconds : Int) (env : Int → ScanEnv)
    (hdev : (env (normalizeSeconds seconds)).newDeviceResult = none) :
    (((env (normalizeSeconds seconds)).scanResult = some .deadlineExceeded ∨
        (env (normalizeSeconds seconds)).scanResult = some .canceled) →
      scanImpl seconds env
        = .ok (drain (collectDevices (env (normalizeSeconds seconds)).events))) ∧
    (∀ msg, (env (normalizeSeconds seconds)).scanResult = some (.other msg) →
      scanImpl seconds env = .error (.other msg)) := by
  constructor
  · rintro (hres | hres) <;> simp [scanImpl, hdev, hres]
  · intro msg hres
    simp [scanImpl, hdev, hres]

/-- Witness for C4: a deadline-ended scan returns the one collected device;
a scan ended by a non-context error returns that error. -/
theorem scan_termination_witness :
    scanImpl 5 (fun _ => ⟨none, [⟨"A", "x", -40⟩], some .deadlineExceeded⟩)
        = .ok [⟨"A", "x", -40⟩] ∧
      scanImpl 5 (fun _ => ⟨none, [⟨"A", "x", -40⟩], some (.other "hci down")⟩)
        = .error (.other "hci down") :=
  ⟨((scan_termination 5
        (fun _ => ⟨none, [⟨"A", "x", -40⟩], some .deadlineExceeded⟩)
        rfl).1 (Or.inl rfl)).trans rfl,
   (scan_termination 5
        (fun _ => ⟨none, [⟨"A", "x", -40⟩], some (.other "hci down")⟩)
        rfl).2 "hci down" rfl⟩

/-- C5: when the service is already running, `Start` fails with the
already-running error and returns the state unchanged — flag, handles and
root included — for every requested port and environment. -/
theorem start_already_running (w : WebDAVState) (env : StartEnv) (port : Nat)
    (h : w.running = true) :
    Start w env port = (.error (.other "webdav already running"), w) := by
  simp [Start, h]

/-- Witness for C5: starting the already-started sample service on another
port fails with the already-running error and leaves its state intact. -/
theorem start_already_running_witness :
    Start sampleStarted sampleStartEnv 9090
      = (.error (.other "webdav already running"), sampleStarted) :=
  start_already_running sampleStarted sampleStartEnv 9090 (by decide)

/-- C7: when the service is not running, `Stop` returns success and changes
no state, and a second consecutive `Stop` does the same — so it never errors
on the second call. -/
theorem stop_not_running_noop (w : WebDAVState) (env env' : StopEnv)
    (h : w.running = false) :
    Stop w env = (none, w) ∧ Stop (Stop w env).2 env' = (none, w) := by
  have h1 : Stop w env = (none, w) := by simp [Stop, h]
  refine ⟨h1, ?_⟩
  rw [h1]
  simp [Stop, h]

/-- Witness for C7: stopping the already-stopped sample service twice, the
second time with a failing shutdown environment, succeeds both times. -/
theorem stop_not_running_noop_witness :
    Stop sampleStopped ⟨none⟩ = (none, sampleStopped) ∧
      Stop (Stop sampleStopped ⟨none⟩).2 ⟨some (.other "x")⟩
        = (none, sampleStopped) :=
  stop_not_running_noop sampleStopped ⟨none⟩ ⟨some (.other "x")⟩ (by decide)

/-- Counterexample for C2: with the sample service running and the graceful
shutdown failing, `Stop` returns the shutdown error while the running flag
is still true — it has not been set to false. -/
theorem stop_shutdown_error_keeps_running :
    (Stop sampleStarted ⟨some (.other "context deadline exceeded")⟩).1
        = some (.other "context deadline exceeded") ∧
      (Stop sampleStarted ⟨some (.other "context deadline exceeded")⟩).2.running
        = true := by
  constructor <;> rfl

/-- C2 as amended: on a running service, `Stop` clears the running flag
exactly when shutdown completes cleanly; when `Stop` fails with a shutdown
error it returns that error with the whole state — running flag included —
unchanged. -/
theorem stop_flag_cleared_only_on_clean_shutdown (w : WebDAVState)
    (env : StopEnv) (h : w.running = true) :
    ((Stop w env).1 = none → (Stop w env).2.running = false) ∧
    (∀ e, (Stop w env).1 = some e → (Stop w env).2 = w) := by
  cases hsrv : w.srv <;> cases hsd : env.shutdownResult <;>
    simp [Stop, h, hsrv, hsd]

/-- Witness for C2 as amended: a clean stop of the started sample service
clears the flag; a failing stop leaves the state unchanged. -/
theorem stop_flag_cleared_only_on_clean_shutdown_witness :
    (Stop sampleStarted ⟨none⟩).2.running = false ∧
      (Stop sampleStarted ⟨some (.other "context deadline exceeded")⟩).2
        = sampleStarted :=
  ⟨(stop_flag_cleared_only_on_clean_shutdown sampleStarted ⟨none⟩
      (by decide)).1 rfl,
   (stop_flag_cleared_only_on_clean_shutdown sampleStarted
      ⟨some (.other "context deadline exceeded")⟩ (by decide)).2 _ rfl⟩

/-- Counterexample for C3: after a completed Start and a clean Stop the
sample service is reachable, not running, yet both handles are still
non-null — `Stop` closes the listener but never clears the handle fields, so
the claimed equivalence fails in the right-to-left direction. -/
theorem server_handles_iff_running_counterexample :
    Reachable sampleService sampleStopped ∧
      ¬(sampleStopped.running = true ↔
        (sampleStopped.srv ≠ none ∧ sampleStopped.listener ≠ none)) :=
  ⟨Reachable.stop sampleStarted ⟨none⟩
      (Reachable.start sampleService sampleStartEnv 8080 Reachable.init),
   by decide⟩

/-- C3 as amended: in every state reachable from construction by completed
Start and Stop calls, a true running flag implies both handles are non-null
(the converse fails: handles persist after a stop). -/
theorem server_running_implies_handles (root : String) (enew : NewEnv)
    (w : WebDAVState) (hw : Reachable (NewWebDAVService root enew) w) :
    w.running = true → w.srv ≠ none ∧ w.listener ≠ none := by
  induction hw with
  | init =>
      intro h
      simp [NewWebDAVService] at h
  | start w env port hr ih =>
      by_cases hrun : w.running = true
      · simpa [Start, hrun] using ih
      · rcases hln : env.listenResult port with e | ln
        · have hres : (Start w env port).2 = w := by
            simp [Start, hrun, hln]
          rw [hres]
          exact ih
        · intro _
          simp [Start, hrun, hln]
  | stop w env hr ih =>
      by_cases hrun : w.running = true
      · have hres : (Stop w env).2 = w ∨
            (Stop w env).2 = { w with running := false } := by
          cases hsrv : w.srv <;> cases hsd : env.shutdownResult <;>
            simp [Stop, hrun, hsrv, hsd]
        rcases hres with hres | hres
        · rw [hres]; exact ih
        · rw [hres]; intro h; simp at h
      · have hres : (Stop w env).2 = w := by
          simp [Stop, hrun]
        rw [hres]
        exact ih

/-- Witness for C3 as amended: the started sample service is reachable and
running, and indeed holds both handles. -/
theorem server_running_implies_handles_witness :
    sampleStarted.srv ≠ none ∧ sampleStarted.listener ≠ none :=
  server_running_implies_handles "/srv" ⟨some "/home", none⟩ sampleStarted
    (Reachable.start sampleService sampleStartEnv 8080 Reachable.init)
    (by decide)

/-- C9: a successful `Start` returns `"<host>:<actualBoundPort>"` where the
host is the `localIPv4` result with 127.0.0.1 as fallback for the empty
sentinel, and the port is the one read back from the bound listener; when
the OS assigned a positive port for `port = 0`, the returned port is that
positive number, never 0. -/
theorem start_address_format (w : WebDAVState) (env : StartEnv) (port : Nat)
    (ln : Listener) (hrun : w.running = false)
    (hln : env.listenResult port = .ok ln) (hpos : 0 < ln.boundPort) :
    (Start w env port).1
        = .ok ((if localIPv4 env.ifacesResult = "" then "127.0.0.1"
                else localIPv4 env.ifacesResult) ++ ":" ++ toString ln.boundPort)
      ∧ 0 < ln.boundPort := by
  refine ⟨?_, hpos⟩
  simp [Start, hrun, hln]

/-- Witness for C9: a fresh service started on port 0 with a bind yielding
OS port 54321 and one LAN interface returns 192.168.1.7 with port 54321. -/
theorem start_address_format_witness :
    (Start (NewWebDAVService "" ⟨some "/home/u", none⟩)
        ⟨fun _ => .ok ⟨54321⟩,
         some [⟨true, false, some [some ⟨false, some ⟨192, 168, 1, 7⟩⟩]⟩]⟩
        0).1
      = .ok "192.168.1.7:54321" :=
  ((start_address_format (NewWebDAVService "" ⟨some "/home/u", none⟩)
      ⟨fun _ => .ok ⟨54321⟩,
       some [⟨true, false, some [some ⟨false, some ⟨192, 168, 1, 7⟩⟩]⟩]⟩
      0 ⟨54321⟩ rfl rfl (by decide)).1).trans rfl

/-- C10: construction never fails — for every root and every filesystem
outcome the returned service is stopped with no handles; a non-empty root is
kept as given, an empty root resolves to `<workingDirectory>/shared` (with
"." when the working directory cannot be read), and the result is unchanged
by a failing directory creation, which is only logged. -/
theorem newWebDAVService_total (root : String) (env : NewEnv) :
    (NewWebDAVService root env).running = false ∧
    (NewWebDAVService root env).srv = none ∧
    (NewWebDAVService root env).listener = none ∧
    (root ≠ "" → (NewWebDAVService root env).root = root) ∧
    (root = "" → (NewWebDAVService root env).root
        = filepathJoin (env.getwd.getD ".") "shared") ∧
    (∀ mk, NewWebDAVService root { env with mkdirResult := mk }
        = NewWebDAVService root env) := by
  refine ⟨rfl, rfl, rfl, fun h => ?_, fun h => ?_, fun mk => rfl⟩
  · simp [NewWebDAVService, h]
  · subst h
    cases hg : env.getwd <;> simp [NewWebDAVService, hg]

/-- Witness for C10: constructing with an empty root while the working
directory is unreadable and directory creation fails still returns a
stopped service rooted at "shared" — `filepath.Join(".", "shared")` Cleans
to "shared" — and a non-empty root is kept verbatim. -/
theorem newWebDAVService_total_witness :
    (NewWebDAVService "" ⟨none, some "permission denied"⟩).running = false ∧
      (NewWebDAVService "" ⟨none, some "permission denied"⟩).root = "shared" ∧
      (NewWebDAVService "/data" ⟨none, some "permission denied"⟩).root
        = "/data" :=
  ⟨(newWebDAVService_total "" ⟨none, some "permission denied"⟩).1,
   (((newWebDAVService_total "" ⟨none, some "permission denied"⟩).2.2.2.2.1
      rfl).trans (by decide)),
   (newWebDAVService_total "/data" ⟨none, some "permission denied"⟩).2.2.2.1
      (by decide)⟩

/-- Helper: the inner address loop returns exactly the first qualifying
IPv4 of the interface's address list. -/
theorem firstIPv4InAddrs_eq_head (addrs : List (Option IP)) :
    firstIPv4InAddrs addrs = (qualifying addrs).head? := by
  induction addrs with
  | nil => rfl
  | cons a rest ih =>
      cases a with
      | none => simpa [firstIPv4InAddrs, qualifying] using ih
      | some ip =>
          by_cases hl : ip.loopback = true
          · simpa [firstIPv4InAddrs, qualifying, hl] using ih
          · rcases hv : ip.v4 with _ | p
            · simpa [firstIPv4InAddrs, qualifying, hl, hv] using ih
            · simp [firstIPv4InAddrs, qualifying, hl, hv]

/-- Helper: the interface loop returns the first qualifying IPv4 across all
up, non-loopback interfaces, in enumeration order, and the empty sentinel
when none exists. -/
theorem localIPv4Go_eq_candidates (ifaces : List Iface) :
    localIPv4Go ifaces
      = ((candidateAddrs ifaces).head?.map ipv4String).getD "" := by
  induction ifaces with
  | nil => rfl
  | cons i rest ih =>
      by_cases hup : (i.up && !i.loopback) = true
      · rcases har : i.addrsResult with _ | addrs
        · simpa [localIPv4Go, hup, har, candidateAddrs, List.filter_cons,
            qualifying] using ih
        · rcases hF : firstIPv4InAddrs addrs with _ | p
          · have hq : (qualifying addrs).head? = none := by
              rw [← firstIPv4InAddrs_eq_head, hF]
            have hqnil : qualifying addrs = [] :=
              List.head?_eq_none_iff.mp hq
            have hstep : localIPv4Go (i :: rest) = localIPv4Go rest := by
              simp [localIPv4Go, hup, har, hF]
            have hcand : candidateAddrs (i :: rest) = candidateAddrs rest := by
              simp [candidateAddrs, List.filter_cons, hup, har, hqnil]
            rw [hstep, hcand]
            exact ih
          · have hq : (qualifying addrs).head? = some p := by
              rw [← firstIPv4InAddrs_eq_head, hF]
            simp [localIPv4Go, hup, har, hF, candidateAddrs,
              List.filter_cons, hq]
      · simpa [localIPv4Go, hup, candidateAddrs, List.filter_cons] using ih

/-- Counterexample for C8: the first up, non-loopback interface has one
assigned address, which yields no qualifying IPv4 — so the claim, reading
the result off that interface, gives the empty sentinel — yet the code keeps
scanning and returns the second interface's address 192.168.1.2. -/
theorem localIPv4_first_iface_counterexample :
    localIPv4PerClaim
        (some [⟨true, false, some [some ⟨false, none⟩]⟩,
               ⟨true, false, some [some ⟨false, some ⟨192, 168, 1, 2⟩⟩]⟩])
      = "" ∧
    localIPv4
        (some [⟨true, false, some [some ⟨false, none⟩]⟩,
               ⟨true, false, some [some ⟨false, some ⟨192, 168, 1, 2⟩⟩]⟩])
      = "192.168.1.2" := by
  constructor <;> decide

/-- C8 as amended: the resolver skips interfaces that are down or loopback
and returns the first address across ALL remaining interfaces, in
enumeration order, that is non-loopback and expressible as IPv4 — not only
the first remaining interface's addresses — and the empty sentinel when no
such address exists; in particular a host with only loopback interfaces
yields the empty sentinel. -/
theorem localIPv4_first_candidate (ifaces : List Iface) :
    localIPv4 (some ifaces)
        = ((candidateAddrs ifaces).head?.map ipv4String).getD "" ∧
    ((∀ i ∈ ifaces, i.loopback = true) → localIPv4 (some ifaces) = "") := by
  refine ⟨localIPv4Go_eq_candidates ifaces, fun hall => ?_⟩
  have hfilter : (ifaces.filter fun i => i.up && !i.loopback) = [] := by
    rw [List.filter_eq_nil_iff]
    intro i hi
    simp [hall i hi]
  have : candidateAddrs ifaces = [] := by
    simp [candidateAddrs, hfilter]
  rw [localIPv4, localIPv4Go_eq_candidates, this]
  rfl

/-- Witness for C8 as amended: a host with one loopback interface carrying
127.0.0.1 resolves to the empty sentinel. -/
theorem localIPv4_first_candidate_witness :
    localIPv4 (some [⟨true, true, some [some ⟨true, some ⟨127, 0, 0, 1⟩⟩]⟩])
      = "" :=
  (localIPv4_first_candidate
      [⟨true, true, some [some ⟨true, some ⟨127, 0, 0, 1⟩⟩]⟩]).2 (by decide)

end LANShare
